import Mathlib

/-!
Shallow embedding of the skeletal-input IPC subsystem
(src/input/skeletal_input: mod.rs, ipc.rs, bin.rs).

Channel endpoints, the OpenXR runtime and the OS are external to the modelled
code; each call into them is represented by an explicit oracle argument giving
that call's result, and each observable action (channel operations, runtime
calls, process-lifecycle operations) is recorded in an effect list.

Machine floats (f32 curl magnitudes) are modelled as rationals: the modelled
code only copies them and never computes with them. Error payloads carried by
external error types (io::Error, bincode::Error) are abstracted to naturals.
Every `.unwrap()` / `panic!` in the source is modelled as a distinguished
`panicked` outcome.
-/

namespace SkeletalInput

/-- crate::openxr_data::Hand. -/
inductive Hand
  | Left
  | Right
deriving DecidableEq, BEq

/-- OpenXR path handles (xr::Path), abstracted to naturals. -/
abbrev XrPath := Nat

/-- f32 curl magnitudes, modelled as rationals (pass-through values only). -/
abbrev Curl := ℚ

/-- mod.rs lines 32-37 (expanded from the skeletal_input_actions! macro):
SkeletalInputActionStates, the fixed record of the four action readings. -/
structure SkeletalInputActionStates where
  thumb_touch : Bool
  index_touch : Bool
  index_curl : Curl
  rest_curl : Curl
deriving DecidableEq

/-- ipc.rs lines 111-117: IPCMessage. -/
inductive IPCMessage
  | SyncActions
  | GetHand (isLeft : Bool)
  | HandData (states : SkeletalInputActionStates)
  | Ack
deriving DecidableEq

/-- ipc_channel::ipc::IpcError: the error type returned by IpcReceiver::recv.
Its Bincode and I/O variants carry external error values, abstracted to Nat. -/
inductive IpcError
  | bincodeErr (e : Nat)
  | ioErr (e : Nat)
  | disconnected
deriving DecidableEq

/-- ipc.rs lines 96-100: IPCConnection. The channel endpoints are modelled by
oracles at each call site; only the child process handle is kept. -/
structure IPCConnection where
  child : Nat
deriving DecidableEq

/-- ipc.rs lines 17-19: SkeletalInputIPC. -/
structure SkeletalInputIPC where
  connection : Option IPCConnection
deriving DecidableEq

/-- An observable operation on the IPC channel endpoints performed by the host. -/
inductive ChannelOp
  | send (m : IPCMessage)
  | recv
deriving DecidableEq

/-- Outcome of a host-side operation: a normal return, an error return, or a
panic (an `.unwrap()` failure or the `panic!` on a protocol violation). -/
inductive HostOutcome (α : Type)
  | ok (a : α)
  | err (e : IpcError)
  | panicked
deriving DecidableEq

/-- ipc.rs lines 65-76: SkeletalInputIPC::sync_actions.
`sendRes` is the result of connection.sender.send(IPCMessage::SyncActions)
(its error payload is discarded by the source), `recvRes` the result of
connection.receiver.recv(); recv errors are propagated by the source's `?`.
Also returns the list of channel operations performed. -/
def SkeletalInputIPC.sync_actions (self : SkeletalInputIPC)
    (sendRes : Except Unit Unit) (recvRes : Except IpcError IPCMessage) :
    HostOutcome Unit × List ChannelOp :=
  match self.connection with
  | none => (HostOutcome.err IpcError.disconnected, [])
  | some _ =>
    match sendRes with
    | Except.ok _ =>
      (match recvRes with
       | Except.error e => HostOutcome.err e
       | Except.ok IPCMessage.Ack => HostOutcome.ok ()
       | Except.ok _ => HostOutcome.panicked,
       [ChannelOp.send IPCMessage.SyncActions, ChannelOp.recv])
    | Except.error _ =>
      (HostOutcome.err IpcError.disconnected, [ChannelOp.send IPCMessage.SyncActions])

/-- ipc.rs lines 78-93: SkeletalInputIPC::get_action_states. Sends
IPCMessage::GetHand(hand == Hand::Left); recv errors are propagated by `?`. -/
def SkeletalInputIPC.get_action_states (self : SkeletalInputIPC) (hand : Hand)
    (sendRes : Except Unit Unit) (recvRes : Except IpcError IPCMessage) :
    HostOutcome SkeletalInputActionStates × List ChannelOp :=
  match self.connection with
  | none => (HostOutcome.err IpcError.disconnected, [])
  | some _ =>
    match sendRes with
    | Except.ok _ =>
      (match recvRes with
       | Except.error e => HostOutcome.err e
       | Except.ok (IPCMessage.HandData states) => HostOutcome.ok states
       | Except.ok _ => HostOutcome.panicked,
       [ChannelOp.send (IPCMessage.GetHand (hand == Hand.Left)), ChannelOp.recv])
    | Except.error _ =>
      (HostOutcome.err IpcError.disconnected,
       [ChannelOp.send (IPCMessage.GetHand (hand == Hand.Left))])

/-- ipc.rs lines 22-63: SkeletalInputIPC::new, non-test path. Oracles:
`serverRes` the result of IpcOneShotServer::new() (unwrapped by the source),
`spawnRes` the result of Command::spawn (on success, the child process handle),
`acceptRes` the result of server.accept() (unwrapped by the source). The
binary-existence check at lines 36-38 only logs and does not change control
flow, so it is not modelled. -/
def SkeletalInputIPC.new (serverRes : Except Nat Unit) (spawnRes : Except Nat Nat)
    (acceptRes : Except Nat Unit) : HostOutcome SkeletalInputIPC :=
  match serverRes with
  | Except.error _ => HostOutcome.panicked
  | Except.ok _ =>
    match spawnRes with
    | Except.ok child =>
      match acceptRes with
      | Except.ok _ => HostOutcome.ok ⟨some ⟨child⟩⟩
      | Except.error _ => HostOutcome.panicked
    | Except.error _ => HostOutcome.ok ⟨none⟩

/-- Observable process-lifecycle operations of IPCConnection::drop. -/
inductive DropEffect
  | killChild
  | logKillError (e : Nat)
  | waitChild
deriving DecidableEq

/-- ipc.rs lines 102-109: IPCConnection::drop. `killRes` is the result of
self.child.kill(); the result of self.child.wait() is discarded by the source.
Rust's drop returns unit, so the model's value is just the effect list: no
error can be propagated. -/
def IPCConnection.drop (killRes : Except Nat Unit) : List DropEffect :=
  (DropEffect.killChild ::
    match killRes with
    | Except.error e => [DropEffect.logKillError e]
    | Except.ok _ => []) ++ [DropEffect.waitChild]

/-- bin.rs: the runtime oracle. `string_to_path` models
instance.string_to_path; the four state fields model the current_state each
xr::Action reports for a given subaction path (bin.rs lines 103-127). -/
structure Runtime where
  string_to_path : String → XrPath
  thumb_touch_state : XrPath → Bool
  index_touch_state : XrPath → Bool
  index_curl_state : XrPath → Curl
  rest_curl_state : XrPath → Curl

/-- bin.rs lines 103-127: SkeletalInputXr::get_action_states — each field is
the runtime's reported current_state for that action at `subaction`. -/
def get_action_states (rt : Runtime) (subaction : XrPath) : SkeletalInputActionStates :=
  { thumb_touch := rt.thumb_touch_state subaction
    index_touch := rt.index_touch_state subaction
    index_curl := rt.index_curl_state subaction
    rest_curl := rt.rest_curl_state subaction }

/-- Observable actions of one iteration of the child's serving loop. -/
inductive ChildEffect
  | syncActionsCall
  | resolvedPath (p : XrPath)
  | sentReply (m : IPCMessage)
deriving DecidableEq

/-- How one iteration of the serving loop ends. -/
inductive StepOutcome
  | continued
  | exitedClean
  | panicked
deriving DecidableEq

/-- bin.rs lines 152-183, one iteration of the serving loop in main.
`recvRes` is the result of notify_receiver.recv(), `sendOk` whether
result_sender.send succeeds. A recv failure breaks the loop; a send failure
also breaks the loop; the catch-all arm is the source's `panic!`. -/
def serveStep (rt : Runtime) (recvRes : Except Unit IPCMessage) (sendOk : Bool) :
    List ChildEffect × StepOutcome :=
  match recvRes with
  | Except.error _ => ([], StepOutcome.exitedClean)
  | Except.ok IPCMessage.SyncActions =>
    ([ChildEffect.syncActionsCall, ChildEffect.sentReply IPCMessage.Ack],
     if sendOk then StepOutcome.continued else StepOutcome.exitedClean)
  | Except.ok (IPCMessage.GetHand isLeft) =>
    let path := rt.string_to_path (if isLeft then ("/user/hand/left") else ("/user/hand/right"))
    ([ChildEffect.resolvedPath path,
      ChildEffect.sentReply (IPCMessage.HandData (get_action_states rt path))],
     if sendOk then StepOutcome.continued else StepOutcome.exitedClean)
  | Except.ok _ => ([], StepOutcome.panicked)

/-- bin.rs lines 152-183: the serving loop, driven by a finite schedule of
(receive result, send success) pairs; an exhausted schedule leaves the loop
still blocked in recv (outcome `continued`). -/
def serveLoop (rt : Runtime) :
    List (Except Unit IPCMessage × Bool) → List ChildEffect × StepOutcome
  | [] => ([], StepOutcome.continued)
  | (recvRes, sendOk) :: rest =>
    let s := serveStep rt recvRes sendOk
    match s.2 with
    | StepOutcome.continued =>
      let r := serveLoop rt rest
      (s.1 ++ r.1, r.2)
    | out => (s.1, out)

/-- xr::SessionState. -/
inductive SessionState
  | UNKNOWN
  | IDLE
  | READY
  | SYNCHRONIZED
  | VISIBLE
  | FOCUSED
  | STOPPING
  | LOSS_PENDING
  | EXITING
deriving DecidableEq

/-- Runtime events observed by the child (xr::Event); every event kind other
than SessionStateChanged is collapsed into `other`. -/
inductive XrEvent
  | SessionStateChanged (state : SessionState)
  | other (tag : Nat)
deriving DecidableEq

/-- One instance.poll_event result: an Err makes the source's `.unwrap()`
panic, Ok none is no event pending, Ok (some e) an event. -/
abbrev PollResult := Except Unit (Option XrEvent)

/-- Whether a poll produced Some(SessionStateChanged) whose state is READY —
the only way the wait loop at bin.rs lines 52-60 exits. -/
def isReadyPoll : PollResult → Bool
  | Except.ok (some (XrEvent.SessionStateChanged s)) => decide (s = SessionState.READY)
  | _ => false

/-- Whether a poll returned Err (which panics the child's unwrap). -/
def isErrorPoll : PollResult → Bool
  | Except.error _ => true
  | _ => false

/-- Steps of SkeletalInputXr::new from the wait loop on (bin.rs lines 51-101). -/
inductive InitStep
  | polledEvent (e : PollResult)
  | panickedOnPoll
  | beganSession
  | createdActions
  | suggestedBindings
  | attachedActionSets

/-- bin.rs lines 51-101: the wait-for-ready loop and the initialization steps
after it, driven by a finite stream of poll results. An exhausted stream means
the loop is still blocked polling; only after a Some(SessionStateChanged)
event with state READY does the child begin the session, create the action
set and actions, suggest bindings, and attach the action set, in that order. -/
def initTrace : List PollResult → List InitStep
  | [] => []
  | e :: rest =>
    InitStep.polledEvent e ::
      match e with
      | Except.error _ => [InitStep.panickedOnPoll]
      | Except.ok (some (XrEvent.SessionStateChanged s)) =>
        if s = SessionState.READY then
          [InitStep.beganSession, InitStep.createdActions,
           InitStep.suggestedBindings, InitStep.attachedActionSets]
        else initTrace rest
      | Except.ok _ => initTrace rest

/-- mod.rs lines 9-11 (expanded): SkeletalInputActions — the four xr::Action
handles, abstracted to naturals. -/
structure SkeletalInputActions where
  thumb_touch : Nat
  index_touch : Nat
  index_curl : Nat
  rest_curl : Nat
deriving DecidableEq

/-- xr::Binding: an action handle paired with a binding path. -/
structure Binding where
  action : Nat
  path : XrPath
deriving DecidableEq

/-- mod.rs lines 16-18 (expanded): SkeletalInputBindings. -/
structure SkeletalInputBindings where
  thumb_touch : List XrPath
  index_touch : List XrPath
  index_curl : List XrPath
  rest_curl : List XrPath
deriving DecidableEq

/-- mod.rs lines 19-28 (expanded from skeletal_input_actions! at 32-37):
SkeletalInputBindings::binding_iter — an empty iterator chained with one
mapped group per field, in field declaration order. -/
def SkeletalInputBindings.binding_iter (self : SkeletalInputBindings)
    (actions : SkeletalInputActions) : List Binding :=
  ([] : List Binding)
    ++ self.thumb_touch.map (fun p => Binding.mk actions.thumb_touch p)
    ++ self.index_touch.map (fun p => Binding.mk actions.index_touch p)
    ++ self.index_curl.map (fun p => Binding.mk actions.index_curl p)
    ++ self.rest_curl.map (fun p => Binding.mk actions.rest_curl p)

/-! ## Theorems -/

/-- C1: if the connector was never successfully connected — in particular when
Command::spawn fails, in which case construction yields the connector with no
connection — then every subsequent sync_actions and get_action_states call,
for every hand and every channel oracle, returns the Disconnected error
immediately, performs no channel operation, and does not panic the host. -/
theorem C1_never_connected_disconnected (es : Nat) (accRes : Except Nat Unit)
    (sendRes sendRes2 : Except Unit Unit)
    (recvRes recvRes2 : Except IpcError IPCMessage) (hand : Hand) :
    SkeletalInputIPC.new (Except.ok ()) (Except.error es) accRes
        = HostOutcome.ok ⟨none⟩ ∧
    SkeletalInputIPC.sync_actions ⟨none⟩ sendRes recvRes
        = (HostOutcome.err IpcError.disconnected, []) ∧
    SkeletalInputIPC.get_action_states ⟨none⟩ hand sendRes2 recvRes2
        = (HostOutcome.err IpcError.disconnected, []) :=
  ⟨rfl, rfl, rfl⟩

/-- C2: on an established connection with a successful send and a well-formed
reply, sync_actions performs exactly one send of SyncActions followed by
exactly one receive, returns Ok exactly when the reply is Ack, and panics
(never succeeds) on any other reply; get_action_states performs exactly one
send of GetHand(hand == Left) — the flag being true exactly for the left
hand — followed by exactly one receive, returns the contained states exactly
when the reply is HandData, and panics on any other reply. -/
theorem C2_request_reply_pairing (conn : IPCConnection) (reply : IPCMessage)
    (hand : Hand) (st : SkeletalInputActionStates) :
    (SkeletalInputIPC.sync_actions ⟨some conn⟩ (Except.ok ()) (Except.ok reply)).2
        = [ChannelOp.send IPCMessage.SyncActions, ChannelOp.recv] ∧
    ((SkeletalInputIPC.sync_actions ⟨some conn⟩ (Except.ok ()) (Except.ok reply)).1
        = HostOutcome.ok () ↔ reply = IPCMessage.Ack) ∧
    ((SkeletalInputIPC.sync_actions ⟨some conn⟩ (Except.ok ()) (Except.ok reply)).1
        = HostOutcome.panicked ↔ reply ≠ IPCMessage.Ack) ∧
    (SkeletalInputIPC.get_action_states ⟨some conn⟩ hand (Except.ok ()) (Except.ok reply)).2
        = [ChannelOp.send (IPCMessage.GetHand (hand == Hand.Left)), ChannelOp.recv] ∧
    ((hand == Hand.Left) = true ↔ hand = Hand.Left) ∧
    ((SkeletalInputIPC.get_action_states ⟨some conn⟩ hand (Except.ok ()) (Except.ok reply)).1
        = HostOutcome.ok st ↔ reply = IPCMessage.HandData st) ∧
    ((SkeletalInputIPC.get_action_states ⟨some conn⟩ hand (Except.ok ()) (Except.ok reply)).1
        = HostOutcome.panicked ↔ ∀ s, reply ≠ IPCMessage.HandData s) := by
  refine ⟨rfl, ?_, ?_, rfl, ?_, ?_, ?_⟩
  · cases reply <;>
      simp [SkeletalInputIPC.sync_actions]
  · cases reply <;>
      simp [SkeletalInputIPC.sync_actions]
  · cases hand <;> decide
  · cases reply <;>
      simp [SkeletalInputIPC.get_action_states]
  · cases reply <;>
      simp [SkeletalInputIPC.get_action_states]

/-- C3 counterexample: on an established connection, a receive failure whose
IpcError is an I/O error is surfaced verbatim as that I/O error, which is not
the Disconnected error value — refuting the claim that every receive failure
surfaces as Disconnected. -/
theorem C3_recv_error_not_disconnected :
    (SkeletalInputIPC.sync_actions ⟨some ⟨0⟩⟩ (Except.ok ())
        (Except.error (IpcError.ioErr 0))).1
      = HostOutcome.err (IpcError.ioErr 0) ∧
    HostOutcome.err (α := Unit) (IpcError.ioErr 0)
      ≠ HostOutcome.err IpcError.disconnected := by
  refine ⟨rfl, ?_⟩
  decide

/-- C3 amended: on an established connection, every send failure is surfaced
as the Disconnected error; a receive failure is surfaced verbatim as the
IpcError the receive reported — which equals Disconnected exactly when the
channel reported disconnection — and neither failure panics the host. -/
theorem C3_failures_surfaced_not_panicking (conn : IPCConnection) (e : IpcError)
    (recvRes recvRes2 : Except IpcError IPCMessage) (hand : Hand) :
    SkeletalInputIPC.sync_actions ⟨some conn⟩ (Except.error ()) recvRes
        = (HostOutcome.err IpcError.disconnected,
           [ChannelOp.send IPCMessage.SyncActions]) ∧
    SkeletalInputIPC.get_action_states ⟨some conn⟩ hand (Except.error ()) recvRes2
        = (HostOutcome.err IpcError.disconnected,
           [ChannelOp.send (IPCMessage.GetHand (hand == Hand.Left))]) ∧
    (SkeletalInputIPC.sync_actions ⟨some conn⟩ (Except.ok ()) (Except.error e)).1
        = HostOutcome.err e ∧
    (SkeletalInputIPC.get_action_states ⟨some conn⟩ hand (Except.ok ()) (Except.error e)).1
        = HostOutcome.err e ∧
    (HostOutcome.err (α := Unit) e = HostOutcome.err IpcError.disconnected
        ↔ e = IpcError.disconnected) := by
  refine ⟨rfl, rfl, rfl, rfl, ?_⟩
  cases e <;> simp

/-- C4: in the child's serving loop, a received SyncActions request causes
exactly one runtime action-sync call followed by exactly one Ack reply; a
received GetHand(isLeft) request resolves the left-hand subaction path when
isLeft is true and the right-hand path otherwise, reads all four action
states for that subaction, and sends exactly one HandData reply carrying
them; a received HandData or Ack message makes the child panic. -/
theorem C4_child_serving_loop (rt : Runtime) (sendOk : Bool) (isLeft : Bool)
    (st : SkeletalInputActionStates) (p : XrPath) :
    serveStep rt (Except.ok IPCMessage.SyncActions) sendOk
      = ([ChildEffect.syncActionsCall, ChildEffect.sentReply IPCMessage.Ack],
         if sendOk then StepOutcome.continued else StepOutcome.exitedClean) ∧
    serveStep rt (Except.ok (IPCMessage.GetHand isLeft)) sendOk
      = ([ChildEffect.resolvedPath
            (rt.string_to_path
              (if isLeft then ("/user/hand/left") else ("/user/hand/right"))),
          ChildEffect.sentReply
            (IPCMessage.HandData
              (get_action_states rt
                (rt.string_to_path
                  (if isLeft then ("/user/hand/left") else ("/user/hand/right")))))],
         if sendOk then StepOutcome.continued else StepOutcome.exitedClean) ∧
    get_action_states rt p
      = { thumb_touch := rt.thumb_touch_state p
          index_touch := rt.index_touch_state p
          index_curl := rt.index_curl_state p
          rest_curl := rt.rest_curl_state p } ∧
    serveStep rt (Except.ok (IPCMessage.HandData st)) sendOk
      = ([], StepOutcome.panicked) ∧
    serveStep rt (Except.ok IPCMessage.Ack) sendOk
      = ([], StepOutcome.panicked) :=
  ⟨rfl, rfl, rfl, rfl, rfl⟩

/-- C5: if the child's request receive fails, the serving loop exits cleanly
at once having done nothing; if a reply send fails, the loop exits cleanly
right after that iteration's work; in every case the remaining schedule is
ignored (no retry) and the outcome is the clean exit, not a panic. -/
theorem C5_child_clean_exit (rt : Runtime) (b : Bool)
    (rest : List (Except Unit IPCMessage × Bool)) (isLeft : Bool) :
    serveLoop rt ((Except.error (), b) :: rest) = ([], StepOutcome.exitedClean) ∧
    serveLoop rt ((Except.ok IPCMessage.SyncActions, false) :: rest)
      = ([ChildEffect.syncActionsCall, ChildEffect.sentReply IPCMessage.Ack],
         StepOutcome.exitedClean) ∧
    serveLoop rt ((Except.ok (IPCMessage.GetHand isLeft), false) :: rest)
      = ([ChildEffect.resolvedPath
            (rt.string_to_path
              (if isLeft then ("/user/hand/left") else ("/user/hand/right"))),
          ChildEffect.sentReply
            (IPCMessage.HandData
              (get_action_states rt
                (rt.string_to_path
                  (if isLeft then ("/user/hand/left") else ("/user/hand/right")))))],
         StepOutcome.exitedClean) ∧
    StepOutcome.exitedClean ≠ StepOutcome.panicked := by
  refine ⟨rfl, rfl, rfl, ?_⟩
  decide

theorem initTrace_ready_split (pre : List PollResult) (e : PollResult)
    (rest : List PollResult)
    (hpre : ∀ x ∈ pre, isReadyPoll x = false ∧ isErrorPoll x = false)
    (he : isReadyPoll e = true) :
    initTrace (pre ++ e :: rest)
      = (pre ++ [e]).map InitStep.polledEvent
          ++ [InitStep.beganSession, InitStep.createdActions,
              InitStep.suggestedBindings, InitStep.attachedActionSets] := by
  induction pre with
  | nil =>
    match e, he with
    | Except.ok (some (XrEvent.SessionStateChanged s)), he =>
      have hs : s = SessionState.READY := by
        have := of_decide_eq_true (by simpa [isReadyPoll] using he)
        exact this
      subst hs
      simp [initTrace]
  | cons x pre ih =>
    have hx := hpre x (List.mem_cons_self ..)
    have hrest : ∀ y ∈ pre, isReadyPoll y = false ∧ isErrorPoll y = false :=
      fun y hy => hpre y (List.mem_cons_of_mem _ hy)
    have := ih hrest
    match x, hx with
    | Except.error u, hx =>
      exact absurd hx.2 (by simp [isErrorPoll])
    | Except.ok none, hx =>
      simpa [initTrace] using this
    | Except.ok (some (XrEvent.other t)), hx =>
      simpa [initTrace] using this
    | Except.ok (some (XrEvent.SessionStateChanged s)), hx =>
      have hs : ¬s = SessionState.READY :=
        of_decide_eq_false (by simpa [isReadyPoll] using hx.1)
      simpa [initTrace, hs] using this

theorem initTrace_no_ready_no_begin (events : List PollResult)
    (h : ∀ x ∈ events, isReadyPoll x = false) :
    InitStep.beganSession ∉ initTrace events := by
  induction events with
  | nil => simp [initTrace]
  | cons e rest ih =>
    have he := h e (List.mem_cons_self ..)
    have hrest : ∀ x ∈ rest, isReadyPoll x = false :=
      fun x hx => h x (List.mem_cons_of_mem _ hx)
    match e, he with
    | Except.error u, he => simp [initTrace]
    | Except.ok none, he =>
      simpa [initTrace] using ih hrest
    | Except.ok (some (XrEvent.other t)), he =>
      simpa [initTrace] using ih hrest
    | Except.ok (some (XrEvent.SessionStateChanged s)), he =>
      have hs : ¬s = SessionState.READY :=
        of_decide_eq_false (by simpa [isReadyPoll] using he)
      simpa [initTrace, hs] using ih hrest

/-- C6: the child's initialization poll loop discards every poll result that
is not a session-state-changed event reaching READY (and does not make the
unwrap panic): once the stream reaches the first READY event, the trace is
exactly the polls up to and including it, followed by beginning the session,
creating the actions, suggesting the bindings and attaching the action set;
and on any stream with no READY event the session is never begun — the loop
keeps polling with no timeout. -/
theorem C6_waits_for_ready (pre : List PollResult) (e : PollResult)
    (rest : List PollResult)
    (hpre : ∀ x ∈ pre, isReadyPoll x = false ∧ isErrorPoll x = false)
    (he : isReadyPoll e = true) :
    initTrace (pre ++ e :: rest)
      = (pre ++ [e]).map InitStep.polledEvent
          ++ [InitStep.beganSession, InitStep.createdActions,
              InitStep.suggestedBindings, InitStep.attachedActionSets] ∧
    (∀ events : List PollResult, (∀ x ∈ events, isReadyPoll x = false) →
      InitStep.beganSession ∉ initTrace events) :=
  ⟨initTrace_ready_split pre e rest hpre he,
   fun events h => initTrace_no_ready_no_begin events h⟩

/-- The concrete discarded-event stream used by the C6 witness: no event, an
unrelated event, and a state change that is not READY. -/
def quietPolls : List PollResult :=
  [Except.ok none, Except.ok (some (XrEvent.other 5)),
   Except.ok (some (XrEvent.SessionStateChanged SessionState.IDLE))]

/-- The concrete READY poll used by the C6 witness. -/
def readyPoll : PollResult :=
  Except.ok (some (XrEvent.SessionStateChanged SessionState.READY))

/-- C6 witness: the wait-for-ready characterization applied to a concrete
stream of three discarded polls followed by a READY event. -/
theorem C6_waits_for_ready_witness :
    initTrace (quietPolls ++ readyPoll :: [])
      = (quietPolls ++ [readyPoll]).map InitStep.polledEvent
          ++ [InitStep.beganSession, InitStep.createdActions,
              InitStep.suggestedBindings, InitStep.attachedActionSets] ∧
    (∀ events : List PollResult, (∀ x ∈ events, isReadyPoll x = false) →
      InitStep.beganSession ∉ initTrace events) :=
  C6_waits_for_ready quietPolls readyPoll [] (by decide) (by decide)

/-- C7 counterexample: with the spawn succeeding and the rendezvous accept
reporting an error (the child exited before completing the handshake),
construction panics on the accept's unwrap — it does not return the
disconnected connector the claim requires. -/
theorem C7_accept_failure_panics :
    SkeletalInputIPC.new (Except.ok ()) (Except.ok 7) (Except.error 0)
      = HostOutcome.panicked ∧
    HostOutcome.panicked ≠ HostOutcome.ok (SkeletalInputIPC.mk none) := by
  refine ⟨rfl, ?_⟩
  decide

/-- C7 amended: construction falls back to the disconnected connector exactly
when Command::spawn itself fails (the rendezvous accept is then never
attempted); when the spawn succeeds and the rendezvous accept reports an
error — the child having exited before completing the handshake — the
construction panics on the unwrap instead of falling back. -/
theorem C7_fallback_only_on_spawn_failure (child e es : Nat)
    (accRes : Except Nat Unit) :
    SkeletalInputIPC.new (Except.ok ()) (Except.ok child) (Except.error e)
      = HostOutcome.panicked ∧
    SkeletalInputIPC.new (Except.ok ()) (Except.error es) accRes
      = HostOutcome.ok ⟨none⟩ ∧
    SkeletalInputIPC.new (Except.ok ()) (Except.ok child) (Except.ok ())
      = HostOutcome.ok ⟨some ⟨child⟩⟩ :=
  ⟨rfl, rfl, rfl⟩

/-- C8: releasing an established connection always kills the child first and
reaps it (waits) last; when the kill succeeds nothing else happens, and when
the kill fails the failure is only logged between the two — drop returns the
effect list alone, so no error is ever propagated. -/
theorem C8_drop_kills_and_reaps (e : Nat) (killRes : Except Nat Unit) :
    IPCConnection.drop (Except.ok ())
      = [DropEffect.killChild, DropEffect.waitChild] ∧
    IPCConnection.drop (Except.error e)
      = [DropEffect.killChild, DropEffect.logKillError e, DropEffect.waitChild] ∧
    (IPCConnection.drop killRes).head? = some DropEffect.killChild ∧
    (IPCConnection.drop killRes).getLast? = some DropEffect.waitChild := by
  refine ⟨rfl, rfl, ?_, ?_⟩ <;> cases killRes <;> rfl

/-- A runtime oracle whose reported index-curl value is 2, used to refute the
unconditional [0,1] range claim. -/
def overCurlRuntime : Runtime :=
  { string_to_path := fun _ => 0
    thumb_touch_state := fun _ => false
    index_touch_state := fun _ => false
    index_curl_state := fun _ => 2
    rest_curl_state := fun _ => 0 }

/-- C9 counterexample: the child copies the runtime's reported curl values
with no clamping, so when the runtime reports an index curl of 2 the produced
ActionStates record carries 2, which is not in [0,1]. -/
theorem C9_curl_not_clamped :
    (get_action_states overCurlRuntime 0).index_curl = 2 ∧
    ¬(0 ≤ (get_action_states overCurlRuntime 0).index_curl ∧
        (get_action_states overCurlRuntime 0).index_curl ≤ 1) := by
  refine ⟨rfl, ?_⟩
  intro h
  have h2 : (2 : Curl) ≤ 1 := h.2
  norm_num at h2

/-- C9 amended: every ActionStates record the child produces consists of
exactly two boolean touch flags and two curl magnitudes, each copied verbatim
from the runtime's reported action value for the requested subaction; each
curl lies in [0,1] exactly when the runtime's reported value does (the child
applies no clamping). -/
theorem C9_states_verbatim_from_runtime (rt : Runtime) (p : XrPath) :
    get_action_states rt p
      = { thumb_touch := rt.thumb_touch_state p
          index_touch := rt.index_touch_state p
          index_curl := rt.index_curl_state p
          rest_curl := rt.rest_curl_state p } ∧
    ((0 ≤ (get_action_states rt p).index_curl ∧
        (get_action_states rt p).index_curl ≤ 1)
      ↔ (0 ≤ rt.index_curl_state p ∧ rt.index_curl_state p ≤ 1)) ∧
    ((0 ≤ (get_action_states rt p).rest_curl ∧
        (get_action_states rt p).rest_curl ≤ 1)
      ↔ (0 ≤ rt.rest_curl_state p ∧ rt.rest_curl_state p ≤ 1)) :=
  ⟨rfl, Iff.rfl, Iff.rfl⟩

theorem map_path_mk (d : Nat) (l : List XrPath) :
    List.map (Binding.path ∘ fun p => Binding.mk d p) l = l := by
  induction l with
  | nil => rfl
  | cons p t ih => simp [ih, Function.comp]

theorem filter_map_group_ne (c d : Nat) (l : List XrPath) (h : d ≠ c) :
    (l.map fun p => Binding.mk d p).filter (fun x => x.action == c) = [] := by
  induction l with
  | nil => rfl
  | cons p t ih =>
    simp only [List.map_cons, List.filter_cons]
    have : ((Binding.mk d p).action == c) = false := by
      simpa using h
    simp [this, ih]

theorem filter_map_group_eq (d : Nat) (l : List XrPath) :
    (l.map fun p => Binding.mk d p).filter (fun x => x.action == d)
      = l.map fun p => Binding.mk d p := by
  induction l with
  | nil => rfl
  | cons p t ih =>
    simp only [List.map_cons, List.filter_cons]
    simp [ih]

/-- C10: when the four action handles are pairwise distinct (as they are,
being four distinct created actions), binding_iter yields exactly one binding
per stored path — its paths in order are the four stored lists concatenated
in the declaration order thumb_touch, index_touch, index_curl, rest_curl —
and the bindings carrying each action handle are exactly that action's group,
with its original path order preserved. -/
theorem C10_binding_iter_grouped (b : SkeletalInputBindings)
    (a : SkeletalInputActions)
    (h1 : a.thumb_touch ≠ a.index_touch) (h2 : a.thumb_touch ≠ a.index_curl)
    (h3 : a.thumb_touch ≠ a.rest_curl) (h4 : a.index_touch ≠ a.index_curl)
    (h5 : a.index_touch ≠ a.rest_curl) (h6 : a.index_curl ≠ a.rest_curl) :
    (b.binding_iter a).map Binding.path
        = b.thumb_touch ++ b.index_touch ++ b.index_curl ++ b.rest_curl ∧
    (b.binding_iter a).length
        = b.thumb_touch.length + b.index_touch.length
            + b.index_curl.length + b.rest_curl.length ∧
    ((b.binding_iter a).filter (fun x => x.action == a.thumb_touch)).map Binding.path
        = b.thumb_touch ∧
    ((b.binding_iter a).filter (fun x => x.action == a.index_touch)).map Binding.path
        = b.index_touch ∧
    ((b.binding_iter a).filter (fun x => x.action == a.index_curl)).map Binding.path
        = b.index_curl ∧
    ((b.binding_iter a).filter (fun x => x.action == a.rest_curl)).map Binding.path
        = b.rest_curl := by
  refine ⟨?_, ?_, ?_, ?_, ?_, ?_⟩ <;>
    simp [SkeletalInputBindings.binding_iter, List.filter_append,
      List.map_map, map_path_mk, Nat.add_assoc,
      filter_map_group_eq,
      filter_map_group_ne _ _ _ h1, filter_map_group_ne _ _ _ h2,
      filter_map_group_ne _ _ _ h3, filter_map_group_ne _ _ _ h4,
      filter_map_group_ne _ _ _ h5, filter_map_group_ne _ _ _ h6,
      filter_map_group_ne _ _ _ h1.symm, filter_map_group_ne _ _ _ h2.symm,
      filter_map_group_ne _ _ _ h3.symm, filter_map_group_ne _ _ _ h4.symm,
      filter_map_group_ne _ _ _ h5.symm, filter_map_group_ne _ _ _ h6.symm]

/-- Concrete action handles for the C10 witness: four distinct handles. -/
def witnessActions : SkeletalInputActions :=
  ⟨0, 1, 2, 3⟩

/-- Concrete stored binding paths for the C10 witness. -/
def witnessBindings : SkeletalInputBindings :=
  ⟨[10, 11], [12], [], [13, 14]⟩

/-- C10 witness: the grouping characterization applied to concrete distinct
handles and concrete path lists. -/
theorem C10_binding_iter_grouped_witness :
    (witnessBindings.binding_iter witnessActions).map Binding.path
        = witnessBindings.thumb_touch ++ witnessBindings.index_touch
            ++ witnessBindings.index_curl ++ witnessBindings.rest_curl ∧
    (witnessBindings.binding_iter witnessActions).length
        = witnessBindings.thumb_touch.length + witnessBindings.index_touch.length
            + witnessBindings.index_curl.length + witnessBindings.rest_curl.length ∧
    ((witnessBindings.binding_iter witnessActions).filter
        (fun x => x.action == witnessActions.thumb_touch)).map Binding.path
        = witnessBindings.thumb_touch ∧
    ((witnessBindings.binding_iter witnessActions).filter
        (fun x => x.action == witnessActions.index_touch)).map Binding.path
        = witnessBindings.index_touch ∧
    ((witnessBindings.binding_iter witnessActions).filter
        (fun x => x.action == witnessActions.index_curl)).map Binding.path
        = witnessBindings.index_curl ∧
    ((witnessBindings.binding_iter witnessActions).filter
        (fun x => x.action == witnessActions.rest_curl)).map Binding.path
        = witnessBindings.rest_curl :=
  C10_binding_iter_grouped witnessBindings witnessActions
    (by decide) (by decide) (by decide) (by decide) (by decide) (by decide)

end SkeletalInput
